import Mathlib

/-!
Shallow embedding of the SAP-vs-PLM reconciliation tool (`app.py`).

Strings from the spreadsheet cells are modelled as `List Char`; numeric
cells as `Option ℚ` where `none` stands for an absent cell (pandas `NaN`).
Python `round(x, n)` on floats uses round-half-to-even; here it is modelled
with the rational `round` (half away from the lower integer).  No theorem
below depends on a tie at the rounding boundary, so the idealisation is
harmless.  A Python exception escaping an expression is modelled by
`Option`/`Except` results.
-/

namespace App

/-- The characters removed by Python `str.strip()` with no argument. -/
def isSpc (c : Char) : Bool :=
  c == ' ' || c == '\t' || c == '\n' || c == '\r' || c == '\x0b' || c == '\x0c'

/-- Python `s.strip()`: remove leading and trailing whitespace. -/
def pyStrip (l : List Char) : List Char :=
  (l.dropWhile isSpc).rdropWhile isSpc

/-- `check_vendor_ref` from `app.py` (lines 71-81), applied to the two raw
vendor-reference cell texts after Python `str(...)`.  `a in b` on Python
strings is the contiguous-substring test, i.e. list infix. -/
def check_vendor_ref (sapRaw plmRaw : List Char) : String :=
  let sap_ref := pyStrip sapRaw
  let plm_ref := pyStrip plmRaw
  if plm_ref = [] then "No Vendor Ref in PLM"
  else if sap_ref = plm_ref then "Exact Match"
  else if sap_ref <:+: plm_ref ∨ plm_ref <:+: sap_ref then "Partial Match"
  else "Mismatch"

/-- Python `round(q, 5)` (modulo the tie-breaking noted in the header). -/
def round5 (q : ℚ) : ℚ := (round (q * 100000) : ℤ) / 100000

/-- Python `round(q, 2)` (modulo the tie-breaking noted in the header). -/
def round2 (q : ℚ) : ℚ := (round (q * 100) : ℤ) / 100

/-- `TOLERANCE = 0.05` from `app.py` line 99. -/
def TOLERANCE : ℚ := 5 / 100

/-- The `SAP_Consumption` cell computed at `app.py` lines 88-92:
`round(comp / base, 5) if pd.notna(base) and base != 0 else 0`.
When `base` is valid and nonzero but `comp` is `NaN`, the division
propagates `NaN` (absent); when `base` is `NaN` or `0`, the `else`
branch yields the number `0`. -/
def SAP_Consumption (comp base : Option ℚ) : Option ℚ :=
  match base with
  | some b => if b ≠ 0 then comp.map (fun c => round5 (c / b)) else some 0
  | none => some 0

/-- Python division, with `ZeroDivisionError` as `none`. -/
def safeDiv (a b : ℚ) : Option ℚ := if b = 0 then none else some (a / b)

/-- `compare_consumption` from `app.py` (lines 101-117) on two numeric
consumptions; `none` would mean an uncaught `ZeroDivisionError`. -/
def compare_consumption (sap plm : ℚ) : Option String :=
  if plm = 0 ∧ sap = 0 then some "OK"
  else if plm = 0 ∧ sap ≠ 0 then some "PLM Missing"
  else
    match safeDiv |sap - plm| plm with
    | none => none
    | some diff_pct =>
      if diff_pct ≤ TOLERANCE then some "Within Tolerance"
      else if sap > plm then some "SAP Higher"
      else some "PLM Higher"

/-- The `Consumption_Status` of one merged row, from the raw SAP
`Comp.Qty.`/`Base quantity` cells and the raw PLM `Consumption` cell:
`SAP_Consumption` per lines 88-92, then
`PLM_Consumption = PLM_Consumption.fillna(0).round(5)` (line 94), then
`compare_consumption` (lines 101-119).  When `SAP_Consumption` is `NaN`
(absent), the Python float comparisons all evaluate to false except
`sap != 0`, which is true; tracing lines 105-117 with that gives
`"PLM Missing"` when `plm == 0` and otherwise `"PLM Higher"`. -/
def rowStatus (comp base plmRaw : Option ℚ) : Option String :=
  let sap := SAP_Consumption comp base
  let plm := round5 (plmRaw.getD 0)
  match sap with
  | some s => compare_consumption s plm
  | none => some (if plm = 0 then "PLM Missing" else "PLM Higher")

/-- The `Consumption_Diff_%` column (`app.py` lines 121-125):
`round(((sap - plm) / plm) * 100, 2) if plm not in [0, None] else None`;
after the line-94 fill the `plm` value is never Python `None`, so the
guard is `plm ≠ 0`. -/
def Consumption_Diff_pct (sap plm : ℚ) : Option ℚ :=
  if plm ≠ 0 then some (round2 ((sap - plm) / plm * 100)) else none

/-- One row of the (renamed) SAP table, restricted to the fields the merge
and the consumption computation read. -/
structure SapRow where
  material : List Char
  color : List Char
  comp : Option ℚ
  base : Option ℚ
deriving DecidableEq

/-- One row of the (renamed) PLM table, restricted to the fields the merge
and the consumption computation read. -/
structure PlmRow where
  material : List Char
  color : List Char
  consumption : Option ℚ
deriving DecidableEq

/-- The merge keys of `pd.merge(..., on=["Material", "Color"], ...)`. -/
def keyMatches (s : SapRow) (p : PlmRow) : Bool :=
  s.material == p.material && s.color == p.color

/-- The output rows one SAP row contributes to a left merge: one per
PLM row with the same key, or a single row with an all-`NaN` right side
when no PLM row matches. -/
def pd_merge_row (plm : List PlmRow) (s : SapRow) : List (SapRow × Option PlmRow) :=
  match plm.filter (keyMatches s) with
  | [] => [(s, none)]
  | ps => ps.map fun p => (s, some p)

/-- `pd.merge(sap_df, plm_df, on=["Material", "Color"], how="left", ...)`
(`app.py` lines 56-62). -/
def pd_merge_left (sap : List SapRow) (plm : List PlmRow) :
    List (SapRow × Option PlmRow) :=
  sap.flatMap (pd_merge_row plm)

/-- The cardinality of a relational left join: each left row contributes
one output row per matching right row, or one unmatched output row. -/
def left_join_card (sap : List SapRow) (plm : List PlmRow) : ℕ :=
  (sap.map fun s => max (plm.countP (keyMatches s)) 1).sum

/-- A spreadsheet cell. -/
inductive Cell where
  | num (q : ℚ)
  | txt (s : List Char)
  | blank
deriving DecidableEq

/-- An in-memory table: a header of column names and positional rows. -/
structure Table where
  cols : List (List Char)
  rows : List (List Cell)
deriving DecidableEq

/-- `df.columns = df.columns.str.strip()` (`app.py` lines 32-33). -/
def strip_columns (t : Table) : Table :=
  { cols := t.cols.map pyStrip, rows := t.rows }

/-- Apply a rename mapping to one column name (`df.rename(columns=...)`
leaves unmapped names unchanged). -/
def rename_col (m : List (List Char × List Char)) (c : List Char) : List Char :=
  match m.find? (fun q => q.1 == c) with
  | some q => q.2
  | none => c

/-- The SAP rename mapping of `app.py` lines 38-44. -/
def sap_renames : List (List Char × List Char) :=
  [("Material".toList, "Material".toList),
   ("FG Color Description".toList, "Color".toList),
   ("Vendor Reference".toList, "Vendor Reference_SAP".toList),
   ("Comp.Qty.".toList, "SAP_Component_Qty".toList),
   ("Base quantity".toList, "Base_Qty".toList)]

/-- The PLM rename mapping of `app.py` lines 46-51. -/
def plm_renames : List (List Char × List Char) :=
  [("Material".toList, "Material".toList),
   ("Color Name".toList, "Color".toList),
   ("Vendor Ref".toList, "Vendor Reference_PLM".toList),
   ("Consumption".toList, "PLM_Consumption".toList)]

/-- `df.rename(columns=..., inplace=True)` on the header only. -/
def rename_table (m : List (List Char × List Char)) (t : Table) : Table :=
  { cols := t.cols.map (rename_col m), rows := t.rows }

/-- The state of `sap_df` after lines 32 and 38-44: the column strip and the
in-place rename, applied to the uploaded table. -/
def prep_sap (t : Table) : Table := rename_table sap_renames (strip_columns t)

/-- The state of `plm_df` after lines 33 and 46-51. -/
def prep_plm (t : Table) : Table := rename_table plm_renames (strip_columns t)

/-- The merge keys as column names. -/
def join_cols : List (List Char) := ["Material".toList, "Color".toList]

/-- The header of `merged_df`: join columns once, every other column from
either side, with `_SAP`/`_PLM` suffixes on non-key name collisions. -/
def merged_cols (sapCols plmCols : List (List Char)) : List (List Char) :=
  sapCols.map (fun c =>
      if join_cols.contains c || !plmCols.contains c then c
      else c ++ "_SAP".toList)
    ++ (plmCols.filter (fun c => !join_cols.contains c)).map (fun c =>
      if sapCols.contains c then c ++ "_PLM".toList else c)

/-- The pipeline steps of `app.py` lines 32-125, in program order. -/
inductive Phase where
  | stripPhase
  | renamePhase
  | mergePhase
  | materialMatchPhase
  | vendorPhase
  | sapConsumpPhase
  | plmFillPhase
  | comparePhase
  | diffPhase
deriving DecidableEq

/-- The control flow of `app.py` lines 32-125 at column granularity: the
phases that complete, and the first uncaught `KeyError` (its missing
label) if one is raised; the blanket `except` at line 222 then reports it.
Only the column accesses that raise independently of cell values are
modelled as failure points: the merge keys (line 56), the
`PLM_Consumption` column read (line 64), and the `Base_Qty` read inside
the consumption lambda (line 90), which Python evaluates, per output row,
before anything else in that lambda.  The `SAP_Component_Qty` read at
line 89 happens only on rows whose base passes the guard, so whether it
raises depends on cell values; it is not a modelled failure point.  The
left join yields at least one output row per SAP row, so the lambda runs
on some row exactly when the SAP table has rows. -/
def runApp (sap plm : Table) : List Phase × Except (List Char) Unit :=
  let sap2 := prep_sap sap
  let plm2 := prep_plm plm
  let t0 := [Phase.stripPhase, Phase.renamePhase]
  if !(sap2.cols.contains "Material".toList && plm2.cols.contains "Material".toList) then
    (t0, .error "Material".toList)
  else if !(sap2.cols.contains "Color".toList && plm2.cols.contains "Color".toList) then
    (t0, .error "Color".toList)
  else
    let mcols := merged_cols sap2.cols plm2.cols
    let t1 := t0 ++ [Phase.mergePhase]
    if !(mcols.contains "PLM_Consumption".toList) then
      (t1, .error "PLM_Consumption".toList)
    else
      let t3 := t1 ++ [Phase.materialMatchPhase, Phase.vendorPhase]
      if !sap2.rows.isEmpty && !(mcols.contains "Base_Qty".toList) then
        (t3, .error "Base_Qty".toList)
      else
        (t3 ++ [Phase.sapConsumpPhase, Phase.plmFillPhase,
                 Phase.comparePhase, Phase.diffPhase], .ok ())

/-- C1 (counterexample): with a present component quantity of 10 and an
absent base quantity — and likewise a zero base quantity — the computed
`SAP_Consumption` is the present number `0`, not an absent value as the
claim requires. -/
theorem C1_counterexample :
    SAP_Consumption (some 10) none = some 0 ∧
    SAP_Consumption (some 10) (some 0) = some 0 ∧
    some (0 : ℚ) ≠ (none : Option ℚ) := by
  refine ⟨rfl, by norm_num [SAP_Consumption], by simp⟩

/-- C1 (amended): when the base quantity is absent or zero the computed
consumption is the present number zero (never an exception); when the
base is a nonzero number, an absent component quantity yields an absent
result and a present one yields the rounded ratio. -/
theorem C1_amended (comp : Option ℚ) (c b : ℚ) (hb : b ≠ 0) :
    SAP_Consumption comp none = some 0 ∧
    SAP_Consumption comp (some 0) = some 0 ∧
    SAP_Consumption none (some b) = none ∧
    SAP_Consumption (some c) (some b) = some (round5 (c / b)) := by
  simp [SAP_Consumption, hb]

/-- C1 (witness): the amended statement at component 10 and base 4. -/
theorem C1_witness :
    SAP_Consumption (some 10) none = some 0 ∧
    SAP_Consumption (some 10) (some 0) = some 0 ∧
    SAP_Consumption none (some 4) = none ∧
    SAP_Consumption (some 10) (some 4) = some (round5 (10 / 4)) :=
  C1_amended (some 10) 10 4 (by norm_num)

/-- One SAP row contributes one output row per key match, or one
unmatched output row. -/
lemma pd_merge_row_length (plm : List PlmRow) (s : SapRow) :
    (pd_merge_row plm s).length = max (plm.countP (keyMatches s)) 1 := by
  rw [List.countP_eq_length_filter]
  unfold pd_merge_row
  cases h : plm.filter (keyMatches s) with
  | nil => simp [h]
  | cons p ps => simp [h]

/-- The merge output size is the left-join cardinality. -/
lemma pd_merge_left_length (sap : List SapRow) (plm : List PlmRow) :
    (pd_merge_left sap plm).length = left_join_card sap plm := by
  induction sap with
  | nil => rfl
  | cons s t ih =>
    simp only [pd_merge_left, left_join_card, List.flatMap_cons, List.length_append,
      List.map_cons, List.sum_cons] at ih ⊢
    rw [pd_merge_row_length, ih]

/-- Every merge output row carries a SAP row; PLM-only keys contribute
nothing. -/
lemma pd_merge_left_mem (sap : List SapRow) (plm : List PlmRow) :
    ∀ r ∈ pd_merge_left sap plm, r.1 ∈ sap := by
  intro r hr
  simp only [pd_merge_left, List.mem_flatMap] at hr
  obtain ⟨s, hs, hr2⟩ := hr
  have hr1 : r.1 = s := by
    unfold pd_merge_row at hr2
    cases h : plm.filter (keyMatches s) with
    | nil => rw [h] at hr2; simp at hr2; rw [hr2]
    | cons p ps =>
      rw [h] at hr2
      simp only [List.mem_map] at hr2
      obtain ⟨q, _, hq⟩ := hr2
      rw [← hq]
  rw [hr1]; exact hs

/-- C3 (counterexample): a row whose SAP consumption is absent (component
cell `NaN`, base 2) against a PLM consumption of 5 is classified
`"PLM Higher"` — there is no `Missing in SAP` status in the code; and a
row with SAP consumption 5 and an absent PLM consumption is classified
`"PLM Missing"`, not the claimed label `Missing in PLM`. -/
theorem C3_counterexample :
    rowStatus none (some 2) (some 5) = some "PLM Higher" ∧
    rowStatus none (some 2) (some 5) ≠ some "Missing in SAP" ∧
    rowStatus (some 10) (some 2) none = some "PLM Missing" ∧
    rowStatus (some 10) (some 2) none ≠ some "Missing in PLM" := by
  refine ⟨?_, ?_, ?_, ?_⟩ <;>
    norm_num [rowStatus, SAP_Consumption, round5, compare_consumption,
      safeDiv, TOLERANCE] <;> decide

/-- C3 (amended): the classifier works on zero-filled values, first match
wins: both zero → `OK`; plm zero with sap nonzero → `PLM Missing`
(the label the code uses); the tolerance comparison is reached only when
plm is nonzero, and then yields one of the three comparison statuses.
There is no `Missing in SAP` rule: a row whose stored consumptions are
both absent (base and PLM cell missing) still classifies as `OK` because
absent values were replaced by zero. -/
theorem C3_amended (sap plm : ℚ) :
    (plm = 0 → sap = 0 → compare_consumption sap plm = some "OK") ∧
    (plm = 0 → sap ≠ 0 → compare_consumption sap plm = some "PLM Missing") ∧
    (plm ≠ 0 →
      compare_consumption sap plm = some "Within Tolerance" ∨
      compare_consumption sap plm = some "SAP Higher" ∨
      compare_consumption sap plm = some "PLM Higher") ∧
    (∀ comp : Option ℚ, rowStatus comp none none = some "OK") := by
  refine ⟨fun hp hs => by simp [compare_consumption, hp, hs],
          fun hp hs => by simp [compare_consumption, hp, hs], fun hp => ?_, fun comp => ?_⟩
  · rcases le_or_lt (|sap - plm| / plm) TOLERANCE with h1 | h1
    · exact Or.inl (by simp [compare_consumption, safeDiv, hp, h1])
    · rcases lt_or_le plm sap with h2 | h2
      · exact Or.inr (Or.inl (by simp [compare_consumption, safeDiv, hp, h1.not_le, h2]))
      · exact Or.inr (Or.inr (by simp [compare_consumption, safeDiv, hp, h1.not_le, h2.not_lt]))
  · simp [rowStatus, SAP_Consumption, compare_consumption, round5]

/-- C3 (witness): the amended statement at sap 0 / plm 0, sap 3 / plm 0,
sap 3 / plm 1, and a row with every quantity cell absent. -/
theorem C3_witness :
    compare_consumption 0 0 = some "OK" ∧
    compare_consumption 3 0 = some "PLM Missing" ∧
    (compare_consumption 3 1 = some "Within Tolerance" ∨
     compare_consumption 3 1 = some "SAP Higher" ∨
     compare_consumption 3 1 = some "PLM Higher") ∧
    rowStatus (some 7) none none = some "OK" :=
  ⟨(C3_amended 0 0).1 rfl rfl,
   (C3_amended 3 0).2.1 rfl (by norm_num),
   (C3_amended 3 1).2.2.1 (by norm_num),
   (C3_amended 0 0).2.2.2 (some 7)⟩

/-- C5 (counterexample): at sap 1, plm 3 the stored percent difference is
the rounded −66.67, not the exact (1 − 3)/3 × 100 = −200/3 the claim
requires. -/
theorem C5_counterexample :
    Consumption_Diff_pct 1 3 = some (-(6667 / 100)) ∧
    Consumption_Diff_pct 1 3 ≠ some ((1 - 3) / 3 * 100) := by
  constructor <;> norm_num [Consumption_Diff_pct, round2, round_eq]

/-- C5 (amended): the percent difference is absent exactly when the stored
plm value is zero; otherwise it is present and equals
(sap − plm)/plm × 100 rounded to two decimals, hence within 0.005 of the
exact ratio. -/
theorem C5_amended (sap plm : ℚ) :
    (plm = 0 → Consumption_Diff_pct sap plm = none) ∧
    (plm ≠ 0 →
      Consumption_Diff_pct sap plm = some (round2 ((sap - plm) / plm * 100)) ∧
      ∀ v, Consumption_Diff_pct sap plm = some v →
        |v - (sap - plm) / plm * 100| ≤ 1 / 200) := by
  constructor
  · intro h; simp [Consumption_Diff_pct, h]
  · intro h
    refine ⟨by simp [Consumption_Diff_pct, h], fun v hv => ?_⟩
    simp only [Consumption_Diff_pct, h, ne_eq, not_false_eq_true, if_true,
      Option.some.injEq] at hv
    set e := (sap - plm) / plm * 100 with he
    rw [← hv]
    unfold round2
    have h1 : |(round (e * 100) : ℚ) - e * 100| ≤ 1 / 2 := by
      rw [abs_sub_comm]; exact abs_sub_round _
    have h2 : ((round (e * 100) : ℚ) / 100 - e)
        = ((round (e * 100) : ℚ) - e * 100) / 100 := by ring
    rw [h2, abs_div, abs_of_pos (by norm_num : (0 : ℚ) < 100)]
    linarith

/-- C5 (witness): the amended statement at plm 0 and at sap 1, plm 3. -/
theorem C5_witness :
    Consumption_Diff_pct 1 0 = none ∧
    (Consumption_Diff_pct 1 3 = some (round2 ((1 - 3) / 3 * 100)) ∧
     ∀ v, Consumption_Diff_pct 1 3 = some v →
       |v - (1 - 3) / 3 * 100| ≤ 1 / 200) :=
  ⟨(C5_amended 1 0).1 rfl, (C5_amended 1 3).2 (by norm_num)⟩

/-- C4: with the 5% tolerance, sap 100 against plm 95 exceeds the
relative tolerance (5/95 > 1/20) and is classified `SAP Higher`, while
sap 100 against plm 95.5 is within it (4.5/95.5 ≤ 1/20) and is
classified `Within Tolerance`. -/
theorem C4_tolerance_boundary :
    compare_consumption 100 95 = some "SAP Higher" ∧
    compare_consumption 100 (955 / 10) = some "Within Tolerance" := by
  constructor <;> norm_num [compare_consumption, safeDiv, TOLERANCE, abs_of_nonneg]

/-- C6 (counterexample): the only normalization the code applies to key
text is Python `strip` (vendor references; the merge keys are not
transformed at all), and it is case-sensitive: the two raw keys
`" ABC "` and `"abc"` do not produce the same normalized key. -/
theorem C6_counterexample :
    pyStrip " ABC ".toList ≠ pyStrip "abc".toList := by decide

/-- C6 (amended): the key normalization actually applied — `strip` —
is idempotent and insensitive to surrounding whitespace, but it is
case-sensitive, so keys differing in letter case normalize differently. -/
theorem C6_amended :
    (∀ l : List Char, pyStrip (pyStrip l) = pyStrip l) ∧
    pyStrip " ABC ".toList = "ABC".toList ∧
    pyStrip " ABC ".toList ≠ pyStrip "abc".toList := by
  refine ⟨fun l => ?_, by decide, by decide⟩
  unfold pyStrip
  have h1 : List.dropWhile isSpc ((List.dropWhile isSpc l).rdropWhile isSpc)
      = (List.dropWhile isSpc l).rdropWhile isSpc := by
    rw [List.dropWhile_eq_self_iff]
    intro hl
    have hpre : (List.dropWhile isSpc l).rdropWhile isSpc <+: List.dropWhile isSpc l :=
      List.rdropWhile_prefix _ _
    have hlen : 0 < (List.dropWhile isSpc l).length :=
      lt_of_lt_of_le hl hpre.length_le
    have hnot := List.dropWhile_get_zero_not isSpc l hlen
    simp only [List.get_eq_getElem] at hnot ⊢
    rw [hpre.getElem hl]
    exact hnot
  rw [h1, List.rdropWhile_idempotent]

/-- C9: the classifier is total on numeric inputs — the division is
guarded by the two zero-denominator branches, so no division fault
(modelled as `none`) ever escapes `compare_consumption`. -/
theorem C9_no_division_fault (sap plm : ℚ) :
    (compare_consumption sap plm).isSome = true := by
  unfold compare_consumption safeDiv
  by_cases hp : plm = 0 <;> by_cases hs : sap = 0 <;>
    simp [hp, hs, apply_ite Option.isSome]

/-- C10: when the SAP vendor reference strips to the empty string and the
PLM one does not, the empty string is an infix of every string, so the
row is classified `Partial Match` — never `Mismatch`. -/
theorem C10_empty_sap_vendor_ref (s p : List Char)
    (hs : pyStrip s = []) (hp : pyStrip p ≠ []) :
    check_vendor_ref s p = "Partial Match" := by
  simp [check_vendor_ref, hs, hp, Ne.symm hp, List.nil_infix]

/-- C10 (witness): a whitespace-only SAP reference against `" V1 "`. -/
theorem C10_witness :
    check_vendor_ref "  ".toList " V1 ".toList = "Partial Match" :=
  C10_empty_sap_vendor_ref _ _ (by decide) (by decide)

/-- C2 (counterexample): with one SAP row keyed (M1, C1) and one PLM row
keyed (M2, C2), the merge emits a single record and none at all for the
key (M2, C2), although that key is present in the PLM table — the join
is a left join, not the claimed outer join. -/
theorem C2_counterexample :
    (pd_merge_left [⟨"M1".toList, "C1".toList, some 10, some 2⟩]
        [⟨"M2".toList, "C2".toList, some 5⟩]).length = 1 ∧
    (pd_merge_left [⟨"M1".toList, "C1".toList, some 10, some 2⟩]
        [⟨"M2".toList, "C2".toList, some 5⟩]).countP
      (fun r => r.1.material == "M2".toList && r.1.color == "C2".toList) = 0 ∧
    (⟨"M2".toList, "C2".toList, some 5⟩ : PlmRow).material = "M2".toList := by
  refine ⟨rfl, rfl, rfl⟩

/-- C2 (amended): the merge is a left join on the raw (Material, Color)
key: the record count equals the left-join cardinality — one output per
SAP row and matching PLM row, one unmatched output for a SAP row with no
match — and every output record carries a SAP row, so keys present only
in the PLM table are dropped. -/
theorem C2_amended (sap : List SapRow) (plm : List PlmRow) :
    (pd_merge_left sap plm).length = left_join_card sap plm ∧
    ∀ r ∈ pd_merge_left sap plm, r.1 ∈ sap :=
  ⟨pd_merge_left_length sap plm, pd_merge_left_mem sap plm⟩

/-- C2 (witness): the amended statement at a one-row SAP table with no
PLM match. -/
theorem C2_witness :
    (pd_merge_left [⟨"M1".toList, "C1".toList, none, none⟩]
        ([] : List PlmRow)).length
      = left_join_card [⟨"M1".toList, "C1".toList, none, none⟩] [] ∧
    ((⟨"M1".toList, "C1".toList, none, none⟩ : SapRow),
        (none : Option PlmRow)).1 ∈
      [(⟨"M1".toList, "C1".toList, none, none⟩ : SapRow)] :=
  ⟨(C2_amended _ _).1,
   (C2_amended [⟨"M1".toList, "C1".toList, none, none⟩] []).2
     (⟨"M1".toList, "C1".toList, none, none⟩, none) (by decide)⟩

/-- C7 (counterexample): a SAP table that is missing only `Base quantity`
(join and color columns present, one data row) sails through the column
strip, the renames, the merge, the `Material_Match` column, and the
vendor-reference check, and only then does the consumption lambda raise
on the absent column — reported under its internal renamed name
`Base_Qty`, caught by the blanket `except`.  Nothing validates the
schema before normalization, and no dedicated `SchemaError` exists. -/
theorem C7_counterexample :
    runApp
      ⟨["Material".toList, "FG Color Description".toList,
        "Vendor Reference".toList, "Comp.Qty.".toList],
       [[Cell.txt "M1".toList, Cell.txt "C1".toList,
         Cell.txt "V1".toList, Cell.num 10]]⟩
      ⟨["Material".toList, "Color Name".toList,
        "Vendor Ref".toList, "Consumption".toList],
       [[Cell.txt "M1".toList, Cell.txt "C1".toList,
         Cell.txt "V1".toList, Cell.num 5]]⟩
    = ([Phase.stripPhase, Phase.renamePhase, Phase.mergePhase,
        Phase.materialMatchPhase, Phase.vendorPhase],
       Except.error "Base_Qty".toList) := by rfl

/-- C7 (amended): there is no schema pre-check: whenever the join and
PLM-consumption columns are present but the (renamed) `Base_Qty` column
is absent and the SAP table has rows, the run executes the strip,
rename, merge, material-match, and vendor phases and only then fails,
with the internal renamed column name as the error payload. -/
theorem C7_amended (sap plm : Table)
    (h1 : (prep_sap sap).cols.contains "Material".toList = true)
    (h2 : (prep_plm plm).cols.contains "Material".toList = true)
    (h3 : (prep_sap sap).cols.contains "Color".toList = true)
    (h4 : (prep_plm plm).cols.contains "Color".toList = true)
    (h5 : (merged_cols (prep_sap sap).cols (prep_plm plm).cols).contains
        "PLM_Consumption".toList = true)
    (h6 : (prep_sap sap).rows.isEmpty = false)
    (h7 : (merged_cols (prep_sap sap).cols (prep_plm plm).cols).contains
        "Base_Qty".toList = false) :
    runApp sap plm
      = ([Phase.stripPhase, Phase.renamePhase, Phase.mergePhase,
          Phase.materialMatchPhase, Phase.vendorPhase],
         Except.error "Base_Qty".toList) := by
  simp at h1 h2 h3 h4 h5 h7
  simp [runApp, h1, h2, h3, h4, h5, h6, h7]

/-- C7 (witness): the amended statement at the concrete pair of tables
whose SAP side lacks only `Base quantity`. -/
theorem C7_witness :
    runApp
      ⟨["Material".toList, "FG Color Description".toList,
        "Vendor Reference".toList, "Comp.Qty.".toList],
       [[Cell.txt "M2".toList, Cell.txt "C2".toList,
         Cell.txt "V2".toList, Cell.num 3]]⟩
      ⟨["Material".toList, "Color Name".toList,
        "Vendor Ref".toList, "Consumption".toList],
       [[Cell.txt "M2".toList, Cell.txt "C2".toList,
         Cell.txt "V2".toList, Cell.num 4]]⟩
    = ([Phase.stripPhase, Phase.renamePhase, Phase.mergePhase,
        Phase.materialMatchPhase, Phase.vendorPhase],
       Except.error "Base_Qty".toList) :=
  C7_amended _ _ (by decide) (by decide) (by decide) (by decide)
    (by decide) (by decide) (by decide)

/-- C8 (counterexample): the run changes the SAP input table: the column
strip assignment and `rename(columns=..., inplace=True)` turn the
uploaded header `[Material, Comp.Qty.]` into
`[Material, SAP_Component_Qty]` on the input object itself. -/
theorem C8_counterexample :
    prep_sap ⟨["Material".toList, "Comp.Qty.".toList],
        [[Cell.txt "M1".toList, Cell.num 10]]⟩
      ≠ ⟨["Material".toList, "Comp.Qty.".toList],
        [[Cell.txt "M1".toList, Cell.num 10]]⟩ ∧
    (prep_sap ⟨["Material".toList, "Comp.Qty.".toList],
        [[Cell.txt "M1".toList, Cell.num 10]]⟩).cols
      = ["Material".toList, "SAP_Component_Qty".toList] := by
  exact ⟨by decide, rfl⟩

/-- C8 (amended): the in-place preparation of either input table rewrites
only the header (strip plus rename); the row data of both inputs is
never altered. -/
theorem C8_amended (sap plm : Table) :
    (prep_sap sap).rows = sap.rows ∧ (prep_plm plm).rows = plm.rows :=
  ⟨rfl, rfl⟩

end App
